import Mathlib

/-!
Shallow embedding of the provider-cassandra reconciliation engine
(`internal/controller/{grant,keyspace,role}` of the repository) and proofs
about its Observe/Create/Update/Delete operations.

The database access port is modelled by explicit parameters:
`execErr : String → Option String` gives the outcome of `db.Exec` for each
statement (`none` = success), and the rows a query's iterator would yield are
passed as explicit values.  Each operation returns the Go `(result, error)`
pair as an `Except`, together with the list of statements/queries actually
issued and the (possibly mutated) managed resource.
-/

namespace ProviderCassandra

/-- Result triple reported by every Observe call (`managed.ExternalObservation`).
Its Go zero value is all-false. -/
structure ExternalObservation where
  resourceExists : Bool
  resourceLateInitialized : Bool
  resourceUpToDate : Bool
  deriving Repr, DecidableEq

/-- Error message constants of grant.go. -/
def errNotGrant : String := "managed resource is not a Grant custom resource"

def errGrantCreate : String := "cannot create grant"

def errGrantDelete : String := "cannot delete grant"

def errGrantObserve : String := "cannot observe grant"

/-- Error message constants of the keyspace controller. -/
def errNotKeyspace : String := "managed resource is not a Keyspace custom resource"

def errSelectKeyspace : String := "cannot select keyspace"

def errCreateKeyspace : String := "cannot create keyspace"

def errUpdateKeyspace : String := "cannot update keyspace"

def errDropKeyspace : String := "cannot drop keyspace"

/-- Error message constants of role.go. -/
def errNotRole : String := "managed resource is not a Role custom resource"

def errSelectRole : String := "cannot select role"

def errCreateRole : String := "cannot create role"

def errUpdateRole : String := "cannot update role"

def errDropRole : String := "cannot drop role"

/-- `v1alpha1.GrantParameters`.  `Role` and `Keyspace` are optional pointers in
the source, but every operation dereferences them unconditionally, so they are
modelled as plain strings.  `Privileges` is the list of `GrantPrivilege`
tokens. -/
structure GrantParameters where
  role : String
  keyspace : String
  privileges : List String
  deriving Repr, DecidableEq

/-- `v1alpha1.GrantObservation`: the privilege list persisted in
`Status.AtProvider`. -/
structure GrantObservation where
  privileges : List String
  deriving Repr, DecidableEq

/-- A Grant managed resource: its desired spec, its status, and whether the
Available condition has been set (`cr.SetConditions(xpv1.Available())`). -/
structure Grant where
  forProvider : GrantParameters
  atProvider : GrantObservation
  conditionsAvailable : Bool
  deriving Repr, DecidableEq

/-- `v1alpha1.KeyspaceParameters`: three optional attributes. -/
structure KeyspaceParameters where
  replicationClass : Option String
  replicationFactor : Option Int
  durableWrites : Option Bool
  deriving Repr, DecidableEq

/-- A Keyspace managed resource.  `externalName` models
`meta.GetExternalName(cr)`. -/
structure Keyspace where
  externalName : String
  forProvider : KeyspaceParameters
  conditionsAvailable : Bool
  deriving Repr, DecidableEq

/-- `v1alpha1.RolePrivilege`: two optional booleans. -/
structure RolePrivilege where
  superUser : Option Bool
  login : Option Bool
  deriving Repr, DecidableEq

/-- `v1alpha1.RoleParameters`. -/
structure RoleParameters where
  privileges : RolePrivilege
  deriving Repr, DecidableEq

/-- A Role managed resource. -/
structure Role where
  externalName : String
  forProvider : RoleParameters
  conditionsAvailable : Bool
  deriving Repr, DecidableEq

/-- The `resource.Managed` argument each operation receives.  `other` stands
for any object that is not of the reconciler's expected kind, including a nil
interface value: the Go type assertion `mg.(*v1alpha1.X)` fails on it. -/
inductive Managed where
  | grant (cr : Grant)
  | keyspace (cr : Keyspace)
  | role (cr : Role)
  | other
  deriving Repr, DecidableEq

/-- Whether the type assertion `mg.(*v1alpha1.Grant)` succeeds. -/
def Managed.isGrant : Managed → Bool
  | .grant _ => true
  | _ => false

/-- Whether the type assertion `mg.(*v1alpha1.Keyspace)` succeeds. -/
def Managed.isKeyspace : Managed → Bool
  | .keyspace _ => true
  | _ => false

/-- Whether the type assertion `mg.(*v1alpha1.Role)` succeeds. -/
def Managed.isRole : Managed → Bool
  | .role _ => true
  | _ => false

/-- `strings.ReplaceAll(s, "_", " ")`: with a one-character pattern and
replacement, replacing all occurrences is a per-character map. -/
def underscoreToSpace (s : String) : String :=
  String.mk (s.toList.map (fun c => if c == '_' then ' ' else c))

/-- grant.go `replaceUnderscoreWithSpace`: each privilege token has every
underscore replaced by a space. -/
def replaceUnderscoreWithSpace (privileges : List String) : List String :=
  privileges.map underscoreToSpace

/-- Doubles every embedded double quote (`strings.ReplaceAll(s, "\"", "\"\"")`
character-wise). -/
def escapeQuotes (s : String) : String :=
  String.mk ((s.toList.map (fun c => if c == '"' then ['"', '"'] else [c])).flatten)

/-- Modelled from the spec: the Identifier Quoting component
(`cassandra.QuoteIdentifier`, whose source file is not in the provided tree)
"escapes/quotes names for safe embedding in generated statements" and
"identifiers are always double-quoted".  Embedded double quotes are escaped by
doubling, the standard CQL identifier escape; the repository's tests only
exercise names without embedded quotes, where this is a plain double-quote
wrap. -/
def quoteIdentifier (s : String) : String :=
  "\"" ++ escapeQuotes s ++ "\""

/-- Runs statements through `db.Exec(ctx, q)` in order, stopping at the first
failure, exactly as the source's per-statement loops with an early `return` do;
returns the statements actually issued and the first error, if any. -/
def execAll (execErr : String → Option String) : List String → List String × Option String
  | [] => ([], none)
  | q :: rest =>
    match execErr q with
    | some e => ([q], some e)
    | none =>
      match execAll execErr rest with
      | (qs, r) => (q :: qs, r)

/-- The statement `fmt.Sprintf("GRANT %s ON KEYSPACE %s TO %s", ...)`. -/
def grantStatement (privilege keyspace role : String) : String :=
  "GRANT " ++ privilege ++ " ON KEYSPACE " ++ quoteIdentifier keyspace ++
    " TO " ++ quoteIdentifier role

/-- The statement `fmt.Sprintf("REVOKE %s ON KEYSPACE %s FROM %s", ...)`. -/
def revokeStatement (privilege keyspace role : String) : String :=
  "REVOKE " ++ privilege ++ " ON KEYSPACE " ++ quoteIdentifier keyspace ++
    " FROM " ++ quoteIdentifier role

/-- The GRANT statements a Grant's Create/Update grant phase issues, one per
normalized desired privilege, in list order. -/
def grantStmtsOf (cr : Grant) : List String :=
  (replaceUnderscoreWithSpace cr.forProvider.privileges).map
    (fun p => grantStatement p cr.forProvider.keyspace cr.forProvider.role)

/-- The first loop of grant.go Observe: iterate the desired permissions; a
missing one sets `upToDate = false` and BREAKS the loop, a present one sets
`resourceExists = true`.  Go iterates the `desiredPermissions` map in
unspecified order; this model iterates the normalized privilege list in
insertion order (iterating the list with its duplicates gives the same result
as iterating the deduplicated map in first-occurrence order, because the loop
body only tests membership).  Returns `(upToDate, resourceExists)`. -/
def scanDesired (observed : List String) : List String → Bool × Bool
  | [] => (true, false)
  | p :: rest =>
    if observed.contains p then ((scanDesired observed rest).1, true)
    else (false, false)

/-- The body of grant.go Observe after a successful query: `rows` are the
`permissions` lists yielded by successive `iter.Scan` calls (their union is the
`observedPermissions` set).  Returns the observation and the possibly mutated
resource. -/
def grantObserveCore (rows : List (List String)) (cr : Grant) :
    ExternalObservation × Grant :=
  let observedPermissions := rows.flatten
  let privileges := replaceUnderscoreWithSpace cr.forProvider.privileges
  let scanned := scanDesired observedPermissions privileges
  let resourceExists := scanned.2
  let upToDate := scanned.1 &&
    cr.atProvider.privileges.all (fun p => privileges.contains p)
  let cr1 := if upToDate then { cr with atProvider := ⟨privileges⟩ } else cr
  let cr2 := if resourceExists then { cr1 with conditionsAvailable := true } else cr1
  (⟨resourceExists, false, upToDate⟩, cr2)

/-- The permissions query of grant.go Observe. -/
def grantObserveQuery (keyspace : String) : String :=
  "SELECT permissions FROM system_auth.role_permissions WHERE role = ? AND resource = \x27data/" ++
    keyspace ++ "\x27"

/-- grant.go `Observe`.  `queryErr` is the error returned by `db.Query`, if
any; `rows` the scanned permission lists. -/
def grantObserve (queryErr : Option String) (rows : List (List String))
    (mg : Managed) : Except String ExternalObservation × List String × Managed :=
  match mg with
  | .grant cr =>
    let q := grantObserveQuery cr.forProvider.keyspace
    match queryErr with
    | some e => (.error (errGrantObserve ++ ": " ++ e), [q], mg)
    | none =>
      let res := grantObserveCore rows cr
      (.ok res.1, [q], .grant res.2)
  | _ => (.error errNotGrant, [], mg)

/-- grant.go `Create`: one GRANT per normalized desired privilege, aborting at
the first failure, wrapped as `errors.Wrap(err, errGrantCreate)`. -/
def grantCreate (execErr : String → Option String) (mg : Managed) :
    Except String Unit × List String × Managed :=
  match mg with
  | .grant cr =>
    match execAll execErr (grantStmtsOf cr) with
    | (attempted, some e) => (.error (errGrantCreate ++ ": " ++ e), attempted, mg)
    | (attempted, none) => (.ok (), attempted, mg)
  | _ => (.error errNotGrant, [], mg)

/-- grant.go `Update`: the grant phase (same statements as Create, failures
wrapped with `errGrantCreate`), then one REVOKE per status privilege absent
from the normalized desired set (failures wrapped with `errGrantDelete`), then
`cr.Status.AtProvider.Privileges = privileges`. -/
def grantUpdate (execErr : String → Option String) (mg : Managed) :
    Except String Unit × List String × Managed :=
  match mg with
  | .grant cr =>
    let privileges := replaceUnderscoreWithSpace cr.forProvider.privileges
    match execAll execErr (grantStmtsOf cr) with
    | (ga, some e) => (.error (errGrantCreate ++ ": " ++ e), ga, mg)
    | (ga, none) =>
      let toRevoke := cr.atProvider.privileges.filter
        (fun p => !privileges.contains p)
      let rstmts := toRevoke.map
        (fun p => revokeStatement p cr.forProvider.keyspace cr.forProvider.role)
      match execAll execErr rstmts with
      | (ra, some e) => (.error (errGrantDelete ++ ": " ++ e), ga ++ ra, mg)
      | (ra, none) => (.ok (), ga ++ ra, .grant { cr with atProvider := ⟨privileges⟩ })
  | _ => (.error errNotGrant, [], mg)

/-- grant.go `Delete`: one REVOKE per normalized desired privilege, aborting at
the first failure. -/
def grantDelete (execErr : String → Option String) (mg : Managed) :
    Except String Unit × List String × Managed :=
  match mg with
  | .grant cr =>
    let rstmts := (replaceUnderscoreWithSpace cr.forProvider.privileges).map
      (fun p => revokeStatement p cr.forProvider.keyspace cr.forProvider.role)
    match execAll execErr rstmts with
    | (attempted, some e) => (.error (errGrantDelete ++ ": " ++ e), attempted, mg)
    | (attempted, none) => (.ok (), attempted, mg)
  | _ => (.error errNotGrant, [], mg)

/-- The Cassandra-internal replication-class qualifier. -/
def locatorPfx : List Char := "org.apache.cassandra.locator.".toList

/-- `strings.TrimPrefix(rc, "org.apache.cassandra.locator.")`: the
database-internal namespace qualifier is stripped from the observed
replication class when present, character-wise. -/
def stripLocator (rc : String) : String :=
  if rc.toList.take locatorPfx.length == locatorPfx then
    String.mk (rc.toList.drop locatorPfx.length)
  else rc

/-- Digit accumulator for `atoi`: consumes decimal digits, failing on any
other character. -/
def digitsToNat (acc : Nat) : List Char → Option Nat
  | [] => some acc
  | c :: cs =>
    if c.isDigit then digitsToNat (acc * 10 + (c.toNat - 48)) cs else none

/-- `strconv.Atoi` as used by the keyspace Observe: the error is discarded, so
a non-numeric string leaves the observed factor at its zero value 0.  (Go
would clamp an out-of-int64-range literal; such inputs do not occur for
replication factors and are modelled as their unbounded value.) -/
def atoi (s : String) : Int :=
  match s.toList with
  | '-' :: cs =>
    (match digitsToNat 0 cs with
     | some n => -(n : Int)
     | none => 0)
  | '+' :: cs =>
    (match digitsToNat 0 cs with
     | some n => (n : Int)
     | none => 0)
  | cs =>
    (match digitsToNat 0 cs with
     | some n => (n : Int)
     | none => 0)

/-- Association-list lookup modelling the scanned `map[string]string`
replication map. -/
def mapLookup (m : List (String × String)) (k : String) : Option String :=
  match m with
  | [] => none
  | (k', v) :: rest => if k' == k then some v else mapLookup rest k

/-- The `observed` KeyspaceParameters the keyspace Observe builds from the
scanned row: all three pointers are allocated (so never unset); class defaults
to "" and factor to 0 when missing from the replication map; the class is
stripped of the Cassandra locator prefix. -/
def observedKeyspaceParams (replMap : List (String × String)) (dw : Bool) :
    KeyspaceParameters where
  replicationClass := some
    (match mapLookup replMap "class" with
     | some rc => stripLocator rc
     | none => "")
  replicationFactor := some
    (match mapLookup replMap "replication_factor" with
     | some rf => atoi rf
     | none => 0)
  durableWrites := some dw

/-- keyspace `upToDate`: each of the three attributes must be non-nil on both
sides and pairwise equal. -/
def keyspaceUpToDate (observed desired : KeyspaceParameters) : Bool :=
  match observed.replicationClass, desired.replicationClass with
  | some o1, some d1 =>
    if o1 != d1 then false
    else
      match observed.replicationFactor, desired.replicationFactor with
      | some o2, some d2 =>
        if o2 != d2 then false
        else
          match observed.durableWrites, desired.durableWrites with
          | some o3, some d3 => o3 == d3
          | _, _ => false
      | _, _ => false
  | _, _ => false

/-- keyspace `lateInit`: every nil desired attribute is filled from the
observed one, returning whether anything was filled together with the mutated
desired parameters (Go mutates `desired` in place). -/
def keyspaceLateInit (observed desired : KeyspaceParameters) :
    Bool × KeyspaceParameters :=
  let s1 :=
    if desired.replicationClass.isNone then
      (true, { desired with replicationClass := observed.replicationClass })
    else (false, desired)
  let s2 :=
    if s1.2.replicationFactor.isNone then
      (true, { s1.2 with replicationFactor := observed.replicationFactor })
    else (s1.1, s1.2)
  if s2.2.durableWrites.isNone then
    (true, { s2.2 with durableWrites := observed.durableWrites })
  else (s2.1, s2.2)

/-- The body of keyspace Observe once both queries succeeded and both rows were
scanned.  Go evaluates the `managed.ExternalObservation` composite literal's
calls in lexical order, so `lateInit` mutates the desired spec BEFORE
`upToDate` compares against it. -/
def keyspaceObserveCore (replMap : List (String × String)) (dw : Bool)
    (cr : Keyspace) : ExternalObservation × Keyspace :=
  let observed := observedKeyspaceParams replMap dw
  let li := keyspaceLateInit observed cr.forProvider
  (⟨true, li.1, keyspaceUpToDate observed li.2⟩,
   { cr with forProvider := li.2, conditionsAvailable := true })

/-- The existence query of keyspace Observe. -/
def keyspaceExistsQuery : String :=
  "SELECT keyspace_name FROM system_schema.keyspaces WHERE keyspace_name = ?"

/-- The details query of keyspace Observe. -/
def keyspaceDetailsQuery : String :=
  "SELECT replication, durable_writes FROM system_schema.keyspaces WHERE keyspace_name = ?"

/-- keyspace `Observe`.  `existsErr`/`detailsErr` are the errors `db.Query`
returns for the two queries; `existsFound` whether the existence scan yields a
row; `detailsRow` the scanned replication map and durable-writes flag (`none`
when the details scan finds no row, which the source reports as a scan
error). -/
def keyspaceObserve (existsErr : Option String) (existsFound : Bool)
    (detailsErr : Option String) (detailsRow : Option (List (String × String) × Bool))
    (mg : Managed) : Except String ExternalObservation × List String × Managed :=
  match mg with
  | .keyspace cr =>
    match existsErr with
    | some e => (.error ("failed to check keyspace existence: " ++ e), [keyspaceExistsQuery], mg)
    | none =>
      if !existsFound then
        (.ok ⟨false, false, false⟩, [keyspaceExistsQuery], mg)
      else
        match detailsErr with
        | some e => (.error (errSelectKeyspace ++ ": " ++ e),
            [keyspaceExistsQuery, keyspaceDetailsQuery], mg)
        | none =>
          match detailsRow with
          | none => (.error "failed to scan keyspace attributes",
              [keyspaceExistsQuery, keyspaceDetailsQuery], mg)
          | some (replMap, dw) =>
            let res := keyspaceObserveCore replMap dw cr
            (.ok res.1, [keyspaceExistsQuery, keyspaceDetailsQuery], .keyspace res.2)
  | _ => (.error errNotKeyspace, [], mg)

/-- Default replication strategy applied by keyspace Create/Update
(`defaultStrategy`). -/
def defaultStrategy : String := "SimpleStrategy"

/-- Default replication factor (`defaultReplicas`). -/
def defaultReplicas : Int := 1

/-- keyspace `Create`: defaults for unset attributes, then one
CREATE KEYSPACE IF NOT EXISTS statement. -/
def keyspaceCreate (execErr : String → Option String) (mg : Managed) :
    Except String Unit × List String × Managed :=
  match mg with
  | .keyspace cr =>
    let strategy :=
      match cr.forProvider.replicationClass with
      | some s => s
      | none => defaultStrategy
    let replicationFactor :=
      match cr.forProvider.replicationFactor with
      | some f => f
      | none => defaultReplicas
    let durableWrites :=
      match cr.forProvider.durableWrites with
      | some d => d
      | none => true
    let query := "CREATE KEYSPACE IF NOT EXISTS " ++ quoteIdentifier cr.externalName ++
      " WITH replication = \x7b\x27class\x27: \x27" ++ strategy ++
      "\x27, \x27replication_factor\x27: " ++ toString replicationFactor ++
      "\x7d AND durable_writes = " ++ (if durableWrites then "true" else "false")
    match execErr query with
    | some e => (.error (errCreateKeyspace ++ ": " ++ e), [query], mg)
    | none => (.ok (), [query], mg)
  | _ => (.error errNotKeyspace, [], mg)

/-- keyspace `Update`: same defaults and clause shape as Create, with an
unconditional ALTER KEYSPACE statement. -/
def keyspaceUpdate (execErr : String → Option String) (mg : Managed) :
    Except String Unit × List String × Managed :=
  match mg with
  | .keyspace cr =>
    let strategy :=
      match cr.forProvider.replicationClass with
      | some s => s
      | none => defaultStrategy
    let replicationFactor :=
      match cr.forProvider.replicationFactor with
      | some f => f
      | none => defaultReplicas
    let durableWrites :=
      match cr.forProvider.durableWrites with
      | some d => d
      | none => true
    let query := "ALTER KEYSPACE " ++ quoteIdentifier cr.externalName ++
      " WITH replication = \x7b\x27class\x27: \x27" ++ strategy ++
      "\x27, \x27replication_factor\x27: " ++ toString replicationFactor ++
      "\x7d AND durable_writes = " ++ (if durableWrites then "true" else "false")
    match execErr query with
    | some e => (.error (errUpdateKeyspace ++ ": " ++ e), [query], mg)
    | none => (.ok (), [query], mg)
  | _ => (.error errNotKeyspace, [], mg)

/-- keyspace `Delete`: a single DROP KEYSPACE IF EXISTS statement. -/
def keyspaceDelete (execErr : String → Option String) (mg : Managed) :
    Except String Unit × List String × Managed :=
  match mg with
  | .keyspace cr =>
    let query := "DROP KEYSPACE IF EXISTS " ++ quoteIdentifier cr.externalName
    match execErr query with
    | some e => (.error (errDropKeyspace ++ ": " ++ e), [query], mg)
    | none => (.ok (), [query], mg)
  | _ => (.error errNotKeyspace, [], mg)

/-- role `upToDate`: both booleans must be non-nil on both sides and pairwise
equal. -/
def roleUpToDate (observed desired : RoleParameters) : Bool :=
  match observed.privileges.superUser, desired.privileges.superUser with
  | some o1, some d1 =>
    if o1 != d1 then false
    else
      match observed.privileges.login, desired.privileges.login with
      | some o2, some d2 => o2 == d2
      | _, _ => false
  | _, _ => false

/-- role `lateInit`: each nil desired boolean is filled from the observed
row. -/
def roleLateInit (observed desired : RoleParameters) : Bool × RoleParameters :=
  let s1 :=
    if desired.privileges.superUser.isNone then
      (true, { desired with privileges :=
        { desired.privileges with superUser := observed.privileges.superUser } })
    else (false, desired)
  if s1.2.privileges.login.isNone then
    (true, { s1.2 with privileges :=
      { s1.2.privileges with login := observed.privileges.login } })
  else (s1.1, s1.2)

/-- The query of role Observe. -/
def roleObserveQuery : String :=
  "SELECT is_superuser, can_login FROM system_auth.roles WHERE role = ?"

/-- role `Observe`.  `row` is the scanned `(is_superuser, can_login)` pair, or
`none` when the scan finds no row.  As in the keyspace Observe, `lateInit`
runs before `upToDate` (lexical evaluation order of the composite literal). -/
def roleObserve (queryErr : Option String) (row : Option (Bool × Bool))
    (mg : Managed) : Except String ExternalObservation × List String × Managed :=
  match mg with
  | .role cr =>
    match queryErr with
    | some e => (.error (errSelectRole ++ ": " ++ e), [roleObserveQuery], mg)
    | none =>
      match row with
      | none => (.ok ⟨false, false, false⟩, [roleObserveQuery], mg)
      | some (su, lg) =>
        let observed : RoleParameters := ⟨⟨some su, some lg⟩⟩
        let li := roleLateInit observed cr.forProvider
        (.ok ⟨true, li.1, roleUpToDate observed li.2⟩, [roleObserveQuery],
         .role { cr with forProvider := li.2, conditionsAvailable := true })
  | _ => (.error errNotRole, [], mg)

/-- Modelled from the spec: `CassandraDB.GetConnectionDetails` (source file not
in the provided tree) returns "a connection-details bundle of
\x7busername: identity, password: generated\x7d". -/
def getConnectionDetails (username pw : String) : List (String × String) :=
  [("username", username), ("password", pw)]

/-- role `Create`: generates a password via the swappable generator (modelled
as the `pwGen` argument), then a single CREATE ROLE IF NOT EXISTS statement;
on success returns the connection details. -/
def roleCreate (pwGen : Except String String) (execErr : String → Option String)
    (mg : Managed) : Except String (List (String × String)) × List String × Managed :=
  match mg with
  | .role cr =>
    match pwGen with
    | .error e => (.error e, [], mg)
    | .ok pw =>
      let su := match cr.forProvider.privileges.superUser with
        | some b => b
        | none => false
      let lg := match cr.forProvider.privileges.login with
        | some b => b
        | none => false
      let query := "CREATE ROLE IF NOT EXISTS " ++ quoteIdentifier cr.externalName ++
        " WITH SUPERUSER = " ++ (if su then "true" else "false") ++
        " AND LOGIN = " ++ (if lg then "true" else "false") ++
        " AND PASSWORD = \x27" ++ pw ++ "\x27"
      match execErr query with
      | some e => (.error (errCreateRole ++ ": " ++ e), [query], mg)
      | none => (.ok (getConnectionDetails cr.externalName pw), [query], mg)
  | _ => (.error errNotRole, [], mg)

/-- role `Update`: a single unconditional ALTER ROLE statement. -/
def roleUpdate (execErr : String → Option String) (mg : Managed) :
    Except String Unit × List String × Managed :=
  match mg with
  | .role cr =>
    let su := match cr.forProvider.privileges.superUser with
      | some b => b
      | none => false
    let lg := match cr.forProvider.privileges.login with
      | some b => b
      | none => false
    let query := "ALTER ROLE " ++ quoteIdentifier cr.externalName ++
      " WITH SUPERUSER = " ++ (if su then "true" else "false") ++
      " AND LOGIN = " ++ (if lg then "true" else "false")
    match execErr query with
    | some e => (.error (errUpdateRole ++ ": " ++ e), [query], mg)
    | none => (.ok (), [query], mg)
  | _ => (.error errNotRole, [], mg)

/-- role `Delete`: a single DROP ROLE IF EXISTS statement. -/
def roleDelete (execErr : String → Option String) (mg : Managed) :
    Except String Unit × List String × Managed :=
  match mg with
  | .role cr =>
    let query := "DROP ROLE IF EXISTS " ++ quoteIdentifier cr.externalName
    match execErr query with
    | some e => (.error (errDropRole ++ ": " ++ e), [query], mg)
    | none => (.ok (), [query], mg)
  | _ => (.error errNotRole, [], mg)

/-- The Grant of the repository's update test: desired SELECT, status MODIFY. -/
def exampleGrant : Grant :=
  ⟨⟨"example_role", "example_keyspace", ["SELECT"]⟩, ⟨["MODIFY"]⟩, false⟩

/-- A Grant desiring MODIFY then SELECT, with empty status. -/
def mixedGrant : Grant :=
  ⟨⟨"example_role", "example_keyspace", ["MODIFY", "SELECT"]⟩, ⟨[]⟩, false⟩

/-- A Grant desiring SELECT and MODIFY, with status SELECT. -/
def matchedGrant : Grant :=
  ⟨⟨"example_role", "example_keyspace", ["SELECT", "MODIFY"]⟩, ⟨["SELECT"]⟩, false⟩

/-- The Keyspace of the repository's late-init test: factor unset. -/
def lateKs : Keyspace :=
  ⟨"example_keyspace", ⟨some "SimpleStrategy", none, some true⟩, false⟩

/-- The fully specified Keyspace of the repository's create/update tests. -/
def exampleKeyspace : Keyspace :=
  ⟨"example_keyspace", ⟨some "SimpleStrategy", some 2, some true⟩, false⟩

/-- A Role with superuser desired true and login unset. -/
def mismatchedRole : Role := ⟨"example_role", ⟨⟨some true, none⟩⟩, false⟩

/-- An Exec stub failing exactly on the GRANT SELECT statement of the test
fixtures. -/
def failingExec : String → Option String :=
  fun s =>
    if s == "GRANT SELECT ON KEYSPACE \"example_keyspace\" TO \"example_role\"" then
      some "boom"
    else none

/-- When every statement succeeds, `execAll` issues them all and reports no
error. -/
theorem execAll_success (execErr : String → Option String) :
    ∀ l : List String, (∀ q ∈ l, execErr q = none) → execAll execErr l = (l, none) := by
  intro l
  induction l with
  | nil => intro _; rfl
  | cons q rest ih =>
    intro h
    have hq : execErr q = none := h q (List.mem_cons_self q rest)
    have hr := ih (fun p hp => h p (List.mem_cons_of_mem q hp))
    simp [execAll, hq, hr]

/-- When the first `i` statements succeed and the `i`-th fails, `execAll`
issues exactly the first `i + 1` statements and reports that error. -/
theorem execAll_fail (execErr : String → Option String) :
    ∀ (l : List String) (i : Nat), i < l.length →
      (∀ j, j < i → execErr (l.getD j "") = none) →
      ∀ e, execErr (l.getD i "") = some e →
      execAll execErr l = (l.take (i + 1), some e) := by
  intro l
  induction l with
  | nil => intro i hi; simp at hi
  | cons q rest ih =>
    intro i hi hpre e hfail
    cases i with
    | zero =>
      simp only [List.getD_cons_zero] at hfail
      simp [execAll, hfail]
    | succ n =>
      have hq : execErr q = none := by
        have h0 := hpre 0 (Nat.succ_pos n)
        simpa using h0
      have hr := ih n (by simpa using hi)
        (fun j hj => by
          have := hpre (j + 1) (by omega)
          simpa using this)
        e (by simpa using hfail)
      simp [execAll, hq, hr]

/-- The first component of `scanDesired` is the full membership check: every
desired privilege is among the observed ones. -/
theorem scanDesired_fst (observed : List String) :
    ∀ l : List String,
      (scanDesired observed l).1 = l.all (fun p => observed.contains p) := by
  intro l
  induction l with
  | nil => rfl
  | cons p rest ih =>
    by_cases h : p ∈ observed
    · simp [scanDesired, h, ih]
    · simp [scanDesired, h]

/-- If `scanDesired` credits existence, some desired privilege really is
observed. -/
theorem scanDesired_snd_true (observed : List String) :
    ∀ l : List String, (scanDesired observed l).2 = true →
      ∃ p, p ∈ l ∧ observed.contains p = true := by
  intro l
  induction l with
  | nil => intro h; simp [scanDesired] at h
  | cons p rest _ =>
    intro h
    by_cases hp : p ∈ observed
    · exact ⟨p, List.mem_cons_self p rest, by simpa using hp⟩
    · simp [scanDesired, hp] at h

/-- If the desired list is nonempty and fully observed, `scanDesired` credits
existence. -/
theorem scanDesired_snd_of_all (observed : List String) :
    ∀ l : List String, l ≠ [] → (∀ p ∈ l, observed.contains p = true) →
      (scanDesired observed l).2 = true := by
  intro l
  cases l with
  | nil => intro h _; exact absurd rfl h
  | cons p rest =>
    intro _ hall
    have hp : p ∈ observed := by
      have := hall p (List.mem_cons_self p rest)
      simpa using this
    simp [scanDesired, hp]

/-- C1: a successful grant Update issues one GRANT per normalized desired
privilege (in list order), then one REVOKE per status privilege absent from
the normalized desired set, and afterwards the status privileges equal the
normalized desired list. -/
theorem grant_update_success_grants_then_revokes
    (execErr : String → Option String) (cr : Grant)
    (h : ∀ s, execErr s = none) :
    grantUpdate execErr (.grant cr) =
      (.ok (),
       grantStmtsOf cr ++
         (cr.atProvider.privileges.filter
             (fun p => !(replaceUnderscoreWithSpace cr.forProvider.privileges).contains p)).map
           (fun p => revokeStatement p cr.forProvider.keyspace cr.forProvider.role),
       .grant { cr with atProvider := ⟨replaceUnderscoreWithSpace cr.forProvider.privileges⟩ }) := by
  have key : ∀ l : List String, execAll execErr l = (l, none) :=
    fun l => execAll_success execErr l (fun q _ => h q)
  simp [grantUpdate, key]

/-- C1 witness: with status privileges MODIFY and desired SELECT, Update
issues exactly one GRANT SELECT then one REVOKE MODIFY and the status becomes
SELECT. -/
theorem grant_update_success_grants_then_revokes_witness :
    grantUpdate (fun _ => none) (.grant exampleGrant) =
      (.ok (),
       ["GRANT SELECT ON KEYSPACE \"example_keyspace\" TO \"example_role\"",
        "REVOKE MODIFY ON KEYSPACE \"example_keyspace\" FROM \"example_role\""],
       .grant ⟨⟨"example_role", "example_keyspace", ["SELECT"]⟩, ⟨["SELECT"]⟩, false⟩) := by
  have h := grant_update_success_grants_then_revokes (fun _ => none) exampleGrant
    (fun _ => rfl)
  exact h.trans (by rfl)

/-- C2 counterexample: with desired privileges MODIFY then SELECT and observed
permissions containing exactly SELECT, Observe reports resourceExists = false
even though the desired privilege SELECT is among the observed permissions:
the loop breaks at the missing MODIFY before crediting SELECT, refuting the
claimed "exactly when at least one desired privilege is observed". -/
theorem grant_observe_exists_counterexample :
    grantObserve none [["SELECT"]] (.grant mixedGrant) =
      (.ok ⟨false, false, false⟩, [grantObserveQuery "example_keyspace"], .grant mixedGrant) ∧
    "SELECT" ∈ replaceUnderscoreWithSpace mixedGrant.forProvider.privileges ∧
    "SELECT" ∈ ([["SELECT"]] : List (List String)).flatten := by
  refine ⟨rfl, by decide, by decide⟩

/-- C2 amended: resourceExists = true only if at least one normalized desired
privilege is among the observed permissions; an empty desired privilege list
always yields resourceExists = false regardless of the observed permissions;
and when the desired list is nonempty and every normalized desired privilege
is observed, resourceExists = true.  (The mixed found/missing case depends on
Go's unspecified map iteration order and is not credited either way.) -/
theorem grant_observe_exists_amended (rows : List (List String)) (cr : Grant) :
    ((grantObserveCore rows cr).1.resourceExists = true →
      ∃ p, p ∈ replaceUnderscoreWithSpace cr.forProvider.privileges ∧
        rows.flatten.contains p = true) ∧
    (cr.forProvider.privileges = [] →
      (grantObserveCore rows cr).1.resourceExists = false) ∧
    (replaceUnderscoreWithSpace cr.forProvider.privileges ≠ [] →
      (∀ p ∈ replaceUnderscoreWithSpace cr.forProvider.privileges,
        rows.flatten.contains p = true) →
      (grantObserveCore rows cr).1.resourceExists = true) := by
  refine ⟨?_, ?_, ?_⟩
  · intro h
    exact scanDesired_snd_true rows.flatten _ (by simpa [grantObserveCore] using h)
  · intro h
    simp [grantObserveCore, replaceUnderscoreWithSpace, h, scanDesired]
  · intro hne hall
    have := scanDesired_snd_of_all rows.flatten _ hne hall
    simpa [grantObserveCore] using this

/-- C2 amended witness: a single desired privilege that is observed yields
resourceExists = true. -/
theorem grant_observe_exists_amended_witness :
    (grantObserveCore [["SELECT"]] exampleGrant).1.resourceExists = true :=
  (grant_observe_exists_amended [["SELECT"]] exampleGrant).2.2 (by decide) (by decide)

/-- C3: grant Observe's resourceUpToDate holds exactly when every normalized
desired privilege is among the observed permissions AND every status privilege
is still in the normalized desired set; and whenever it holds, the status
privileges are overwritten with the normalized desired list. -/
theorem grant_observe_uptodate (rows : List (List String)) (cr : Grant) :
    ((grantObserveCore rows cr).1.resourceUpToDate = true ↔
      (∀ p ∈ replaceUnderscoreWithSpace cr.forProvider.privileges,
        rows.flatten.contains p = true) ∧
      (∀ p ∈ cr.atProvider.privileges,
        (replaceUnderscoreWithSpace cr.forProvider.privileges).contains p = true)) ∧
    ((grantObserveCore rows cr).1.resourceUpToDate = true →
      (grantObserveCore rows cr).2.atProvider.privileges =
        replaceUnderscoreWithSpace cr.forProvider.privileges) := by
  constructor
  · simp only [grantObserveCore, scanDesired_fst]
    simp [List.all_eq_true]
  · intro h
    have hb : ((scanDesired rows.flatten
        (replaceUnderscoreWithSpace cr.forProvider.privileges)).1 &&
        cr.atProvider.privileges.all
          (fun p => (replaceUnderscoreWithSpace cr.forProvider.privileges).contains p)) = true := by
      simpa [grantObserveCore] using h
    rw [Bool.and_eq_true] at hb
    obtain ⟨h1, h2⟩ := hb
    have h2' : ∀ x ∈ cr.atProvider.privileges,
        x ∈ replaceUnderscoreWithSpace cr.forProvider.privileges := by
      simpa [List.all_eq_true] using h2
    simp [grantObserveCore, h1, eq_true h2']
    split <;> rfl

/-- C3 witness: desired SELECT and MODIFY both observed and status SELECT still
desired, so upToDate holds and the status is refreshed to the normalized
desired list. -/
theorem grant_observe_uptodate_witness :
    (grantObserveCore [["SELECT", "MODIFY"]] matchedGrant).2.atProvider.privileges =
      ["SELECT", "MODIFY"] := by
  have h := (grant_observe_uptodate [["SELECT", "MODIFY"]] matchedGrant).2 (by decide)
  exact h.trans (by decide)

/-- C4: for an existing Keyspace, Observe fills each unset desired attribute
from the observed values (`Option.or` of desired over observed; set attributes
are preserved), reports lateInitialized exactly when some desired attribute
was unset, and reports upToDate exactly when the filled desired parameters
coincide with the observed ones — so an object whose only differences from the
observed state were unset attributes reports upToDate = true and
lateInitialized = true in the same call. -/
theorem keyspace_observe_lateinit_uptodate (replMap : List (String × String))
    (dw : Bool) (cr : Keyspace) :
    ((keyspaceObserveCore replMap dw cr).2.forProvider =
      ⟨cr.forProvider.replicationClass.or (observedKeyspaceParams replMap dw).replicationClass,
       cr.forProvider.replicationFactor.or (observedKeyspaceParams replMap dw).replicationFactor,
       cr.forProvider.durableWrites.or (observedKeyspaceParams replMap dw).durableWrites⟩) ∧
    ((keyspaceObserveCore replMap dw cr).1.resourceLateInitialized =
      (cr.forProvider.replicationClass.isNone || cr.forProvider.replicationFactor.isNone ||
       cr.forProvider.durableWrites.isNone)) ∧
    ((keyspaceObserveCore replMap dw cr).1.resourceUpToDate = true ↔
      (keyspaceObserveCore replMap dw cr).2.forProvider = observedKeyspaceParams replMap dw) ∧
    ((cr.forProvider.replicationClass.isNone || cr.forProvider.replicationFactor.isNone ||
       cr.forProvider.durableWrites.isNone) = true →
     (∀ v, cr.forProvider.replicationClass = some v →
        (observedKeyspaceParams replMap dw).replicationClass = some v) →
     (∀ v, cr.forProvider.replicationFactor = some v →
        (observedKeyspaceParams replMap dw).replicationFactor = some v) →
     (∀ v, cr.forProvider.durableWrites = some v →
        (observedKeyspaceParams replMap dw).durableWrites = some v) →
     (keyspaceObserveCore replMap dw cr).1.resourceUpToDate = true ∧
     (keyspaceObserveCore replMap dw cr).1.resourceLateInitialized = true) := by
  obtain ⟨name, ⟨c, f, d⟩, cond⟩ := cr
  obtain ⟨a, b, g, habg⟩ : ∃ a b g,
      observedKeyspaceParams replMap dw = ⟨some a, some b, some g⟩ := ⟨_, _, _, rfl⟩
  simp only [keyspaceObserveCore, habg]
  rcases c with _ | cv <;> rcases f with _ | fv <;> rcases d with _ | dv <;>
    simp [keyspaceLateInit, keyspaceUpToDate, Option.or] <;>
    aesop

/-- C4 witness: the repository's late-init test case — factor unset, class and
durable-writes matching the observed row — reports upToDate = true and
lateInitialized = true in the same Observe call. -/
theorem keyspace_observe_lateinit_uptodate_witness :
    (keyspaceObserveCore [("class", "SimpleStrategy"), ("replication_factor", "2")]
        true lateKs).1.resourceUpToDate = true ∧
    (keyspaceObserveCore [("class", "SimpleStrategy"), ("replication_factor", "2")]
        true lateKs).1.resourceLateInitialized = true := by
  refine (keyspace_observe_lateinit_uptodate _ _ _).2.2.2 (by decide) ?_ ?_ ?_
  · intro v hv
    have hv' : v = "SimpleStrategy" := by
      have : some "SimpleStrategy" = some v := hv
      exact (Option.some.injEq _ _ ▸ this).symm
    subst hv'
    decide
  · intro v hv
    simp [lateKs] at hv
  · intro v hv
    have hv' : v = true := by
      have : some true = some v := hv
      exact (Option.some.injEq _ _ ▸ this).symm
    subst hv'
    decide

/-- C5: keyspace Create substitutes defaults for unset attributes and issues
exactly one CREATE KEYSPACE IF NOT EXISTS statement with the double-quoted
identity, the replication map and the lowercase boolean; Update issues the
identical clause shape behind ALTER KEYSPACE; and on the repository's test
fixture the statements are reproduced bit-exactly. -/
theorem keyspace_create_update_statements (execErr : String → Option String)
    (cr : Keyspace) :
    (keyspaceCreate execErr (.keyspace cr)).2.1 =
      ["CREATE KEYSPACE IF NOT EXISTS " ++ quoteIdentifier cr.externalName ++
        " WITH replication = \x7b\x27class\x27: \x27" ++
        cr.forProvider.replicationClass.getD "SimpleStrategy" ++
        "\x27, \x27replication_factor\x27: " ++
        toString (cr.forProvider.replicationFactor.getD 1) ++
        "\x7d AND durable_writes = " ++
        (if cr.forProvider.durableWrites.getD true then "true" else "false")] ∧
    (keyspaceUpdate execErr (.keyspace cr)).2.1 =
      ["ALTER KEYSPACE " ++ quoteIdentifier cr.externalName ++
        " WITH replication = \x7b\x27class\x27: \x27" ++
        cr.forProvider.replicationClass.getD "SimpleStrategy" ++
        "\x27, \x27replication_factor\x27: " ++
        toString (cr.forProvider.replicationFactor.getD 1) ++
        "\x7d AND durable_writes = " ++
        (if cr.forProvider.durableWrites.getD true then "true" else "false")] ∧
    (keyspaceCreate (fun _ => none) (.keyspace exampleKeyspace)).2.1 =
      ["CREATE KEYSPACE IF NOT EXISTS \"example_keyspace\" WITH replication = \x7b\x27class\x27: \x27SimpleStrategy\x27, \x27replication_factor\x27: 2\x7d AND durable_writes = true"] ∧
    (keyspaceUpdate (fun _ => none) (.keyspace exampleKeyspace)).2.1 =
      ["ALTER KEYSPACE \"example_keyspace\" WITH replication = \x7b\x27class\x27: \x27SimpleStrategy\x27, \x27replication_factor\x27: 2\x7d AND durable_writes = true"] := by
  obtain ⟨name, ⟨c, f, d⟩, cond⟩ := cr
  refine ⟨?_, ?_, by rfl, by rfl⟩
  · rcases c with _ | cv <;> rcases f with _ | fv <;> rcases d with _ | dv <;>
      (simp only [keyspaceCreate]; split <;> rfl)
  · rcases c with _ | cv <;> rcases f with _ | fv <;> rcases d with _ | dv <;>
      (simp only [keyspaceUpdate]; split <;> rfl)

/-- C6: when the existence query succeeds but no row is scanned, keyspace and
role Observe return exists = false, upToDate = false with a nil error and
leave the resource untouched: absence is never reported as an error. -/
theorem observe_absent_not_error (k : Keyspace) (r : Role)
    (detailsErr : Option String)
    (detailsRow : Option (List (String × String) × Bool)) :
    keyspaceObserve none false detailsErr detailsRow (.keyspace k) =
      (.ok ⟨false, false, false⟩, [keyspaceExistsQuery], .keyspace k) ∧
    roleObserve none none (.role r) =
      (.ok ⟨false, false, false⟩, [roleObserveQuery], .role r) :=
  ⟨rfl, rfl⟩

/-- C7: every operation of the three reconcilers, given an object that is not
of its expected kind (including the nil case, `Managed.other`), returns the
kind-mismatch error together with the Go zero-value result (the error branch
carries no result, matching Go's `(zero, err)` return), issues no database
statement or query, and leaves the object unchanged. -/
theorem external_ops_reject_wrong_kind (mg : Managed)
    (queryErr : Option String) (rows : List (List String))
    (execErr : String → Option String)
    (existsErr : Option String) (existsFound : Bool)
    (detailsErr : Option String) (detailsRow : Option (List (String × String) × Bool))
    (roleRow : Option (Bool × Bool)) (pwGen : Except String String) :
    (mg.isGrant = false →
      grantObserve queryErr rows mg = (.error errNotGrant, [], mg) ∧
      grantCreate execErr mg = (.error errNotGrant, [], mg) ∧
      grantUpdate execErr mg = (.error errNotGrant, [], mg) ∧
      grantDelete execErr mg = (.error errNotGrant, [], mg)) ∧
    (mg.isKeyspace = false →
      keyspaceObserve existsErr existsFound detailsErr detailsRow mg =
        (.error errNotKeyspace, [], mg) ∧
      keyspaceCreate execErr mg = (.error errNotKeyspace, [], mg) ∧
      keyspaceUpdate execErr mg = (.error errNotKeyspace, [], mg) ∧
      keyspaceDelete execErr mg = (.error errNotKeyspace, [], mg)) ∧
    (mg.isRole = false →
      roleObserve queryErr roleRow mg = (.error errNotRole, [], mg) ∧
      roleCreate pwGen execErr mg = (.error errNotRole, [], mg) ∧
      roleUpdate execErr mg = (.error errNotRole, [], mg) ∧
      roleDelete execErr mg = (.error errNotRole, [], mg)) := by
  cases mg <;>
    simp [Managed.isGrant, Managed.isKeyspace, Managed.isRole,
      grantObserve, grantCreate, grantUpdate, grantDelete,
      keyspaceObserve, keyspaceCreate, keyspaceUpdate, keyspaceDelete,
      roleObserve, roleCreate, roleUpdate, roleDelete]

/-- C7 witness: the non-kind object is rejected by a sample operation of each
reconciler with no statements and no mutation. -/
theorem external_ops_reject_wrong_kind_witness :
    grantObserve none [] .other = (.error errNotGrant, [], .other) ∧
    keyspaceCreate (fun _ => none) .other = (.error errNotKeyspace, [], .other) ∧
    roleDelete (fun _ => none) .other = (.error errNotRole, [], .other) := by
  have h := external_ops_reject_wrong_kind .other none [] (fun _ => none)
    none false none none none (.ok "pw")
  exact ⟨(h.1 rfl).1, (h.2.1 rfl).2.1, (h.2.2 rfl).2.2.2⟩

/-- C8 counterexample: a Role whose desired superuser is set to true while the
observed row reports false, and whose login is unset, is late-initialized
(lateInitialized = true) but reported upToDate = false, refuting the claim
that any unset desired boolean yields upToDate = true in the same call. -/
theorem role_observe_uptodate_counterexample :
    roleObserve none (some (false, false)) (.role mismatchedRole) =
      (.ok ⟨true, true, false⟩, [roleObserveQuery],
       .role ⟨"example_role", ⟨⟨some true, some false⟩⟩, true⟩) ∧
    mismatchedRole.forProvider.privileges.login = none := ⟨rfl, rfl⟩

/-- C8 amended: when the role's query returns a row `(su, lg)`, Observe always
fills each unset desired boolean from the observed row (a set boolean is kept,
an unset one becomes the observed value — `Option.getD` over observed),
reports lateInitialized exactly when some desired boolean was unset, and
reports upToDate exactly when each filled boolean equals the observed one,
i.e. exactly when every desired boolean that was already set matches the
observed row — so whenever any desired boolean was unset AND the set ones
match the row (in particular when all were unset), Observe reports
upToDate = true and lateInitialized = true in that same call. -/
theorem role_observe_lateinit_uptodate (su lg : Bool) (cr : Role) :
    roleObserve none (some (su, lg)) (.role cr) =
      (.ok ⟨true,
            cr.forProvider.privileges.superUser.isNone ||
              cr.forProvider.privileges.login.isNone,
            ((cr.forProvider.privileges.superUser.getD su == su) &&
              (cr.forProvider.privileges.login.getD lg == lg))⟩,
       [roleObserveQuery],
       .role { cr with forProvider := ⟨⟨some (cr.forProvider.privileges.superUser.getD su), some (cr.forProvider.privileges.login.getD lg)⟩⟩, conditionsAvailable := true }) := by
  obtain ⟨name, ⟨⟨osu, olg⟩⟩, cond⟩ := cr
  rcases osu with _ | bsu <;> rcases olg with _ | blg <;>
    cases su <;> cases lg <;>
    (try cases bsu) <;> (try cases blg) <;> rfl

/-- Frame properties of the grant Observe body: the reported lateInitialized
flag is the literal false; the desired spec is never touched; the status
privileges are overwritten with the normalized desired list exactly in the
upToDate case and untouched otherwise. -/
theorem grantObserveCore_frame (rows : List (List String)) (cr : Grant) :
    (grantObserveCore rows cr).1.resourceLateInitialized = false ∧
    (grantObserveCore rows cr).2.forProvider = cr.forProvider ∧
    ((grantObserveCore rows cr).1.resourceUpToDate = true →
      (grantObserveCore rows cr).2.atProvider.privileges =
        replaceUnderscoreWithSpace cr.forProvider.privileges) ∧
    ((grantObserveCore rows cr).1.resourceUpToDate = false →
      (grantObserveCore rows cr).2.atProvider = cr.atProvider) := by
  by_cases hu : ((scanDesired rows.flatten
      (replaceUnderscoreWithSpace cr.forProvider.privileges)).1 &&
      cr.atProvider.privileges.all
        (fun p => (replaceUnderscoreWithSpace cr.forProvider.privileges).contains p)) = true
  · refine ⟨rfl, ?_, ?_, ?_⟩
    · simp only [grantObserveCore, hu]
      split <;> rfl
    · intro _
      simp only [grantObserveCore, hu]
      split <;> rfl
    · intro h
      simp only [grantObserveCore, hu] at h
      simp at h
  · have hu' : ((scanDesired rows.flatten
        (replaceUnderscoreWithSpace cr.forProvider.privileges)).1 &&
        cr.atProvider.privileges.all
          (fun p => (replaceUnderscoreWithSpace cr.forProvider.privileges).contains p)) = false :=
      Bool.eq_false_iff.mpr hu
    refine ⟨rfl, ?_, ?_, ?_⟩
    · simp only [grantObserveCore, hu']
      split <;> rfl
    · intro h
      simp only [grantObserveCore, hu'] at h
      simp at h
    · intro _
      simp only [grantObserveCore, hu']
      split <;> rfl

/-- C9: if the i-th GRANT statement of a grant Create or Update fails (all
earlier ones succeeding), the operation returns immediately with that error
wrapped in the creation label, having issued exactly the first i+1 grant
statements — in particular no REVOKE after a grant-phase failure and no
compensating rollback statement — and on ANY erroring Create or Update the
resource, including Status.AtProvider.Privileges, is returned unchanged. -/
theorem grant_ops_abort_on_first_failure (execErr : String → Option String)
    (cr : Grant) :
    (∀ i, i < (grantStmtsOf cr).length →
      (∀ j, j < i → execErr ((grantStmtsOf cr).getD j "") = none) →
      ∀ e, execErr ((grantStmtsOf cr).getD i "") = some e →
        grantCreate execErr (.grant cr) =
          (.error (errGrantCreate ++ ": " ++ e), (grantStmtsOf cr).take (i + 1), .grant cr) ∧
        grantUpdate execErr (.grant cr) =
          (.error (errGrantCreate ++ ": " ++ e), (grantStmtsOf cr).take (i + 1), .grant cr)) ∧
    (∀ e stmts mg', grantCreate execErr (.grant cr) = (.error e, stmts, mg') →
      mg' = .grant cr) ∧
    (∀ e stmts mg', grantUpdate execErr (.grant cr) = (.error e, stmts, mg') →
      mg' = .grant cr) := by
  refine ⟨?_, ?_, ?_⟩
  · intro i hi hpre e hfail
    have hf := execAll_fail execErr (grantStmtsOf cr) i hi hpre e hfail
    constructor
    · simp [grantCreate, hf]
    · simp [grantUpdate, hf]
  · intro e stmts mg' heq
    rcases hga : execAll execErr (grantStmtsOf cr) with ⟨ga, gerr⟩
    rcases gerr with _ | ge
    · simp only [grantCreate, hga] at heq
      exact absurd heq (by simp)
    · simp only [grantCreate, hga] at heq
      cases heq
      rfl
  · intro e stmts mg' heq
    rcases hga : execAll execErr (grantStmtsOf cr) with ⟨ga, gerr⟩
    rcases gerr with _ | ge
    · rcases hra : execAll execErr
          ((cr.atProvider.privileges.filter
              (fun p => !(replaceUnderscoreWithSpace cr.forProvider.privileges).contains p)).map
            (fun p => revokeStatement p cr.forProvider.keyspace cr.forProvider.role))
        with ⟨ra, rerr⟩
      rcases rerr with _ | re
      · simp only [grantUpdate, hga, hra] at heq
        exact absurd heq (by simp)
      · simp only [grantUpdate, hga, hra] at heq
        cases heq
        rfl
    · simp only [grantUpdate, hga] at heq
      cases heq
      rfl

/-- C9 witness: with desired SELECT, status MODIFY and an Exec failing on the
GRANT SELECT statement, Create and Update both stop after that single
statement (no REVOKE is attempted), wrap the error in the creation label and
leave the resource unchanged. -/
theorem grant_ops_abort_on_first_failure_witness :
    grantCreate failingExec (.grant exampleGrant) =
      (.error "cannot create grant: boom",
       ["GRANT SELECT ON KEYSPACE \"example_keyspace\" TO \"example_role\""],
       .grant exampleGrant) ∧
    grantUpdate failingExec (.grant exampleGrant) =
      (.error "cannot create grant: boom",
       ["GRANT SELECT ON KEYSPACE \"example_keyspace\" TO \"example_role\""],
       .grant exampleGrant) := by
  have h := (grant_ops_abort_on_first_failure failingExec exampleGrant).1 0
    (by decide) (fun j hj => absurd hj (Nat.not_lt_zero j)) "boom" (by decide)
  exact ⟨h.1.trans (by rfl), h.2.trans (by rfl)⟩

/-- C10: grant Observe always reports lateInitialized = false and never
mutates Spec.ForProvider; besides the Available condition the only field it
may change is Status.AtProvider.Privileges, and only when upToDate is true (an
erroring query returns the resource untouched together with the Go zero-value
observation, whose LateInitialized field is also false). -/
theorem grant_observe_frame (queryErr : Option String)
    (rows : List (List String)) (cr : Grant) :
    (∀ obs stmts mg', grantObserve queryErr rows (.grant cr) = (.ok obs, stmts, mg') →
      obs.resourceLateInitialized = false ∧
      ∃ cr', mg' = .grant cr' ∧
        cr'.forProvider = cr.forProvider ∧
        (obs.resourceUpToDate = true →
          cr'.atProvider.privileges = replaceUnderscoreWithSpace cr.forProvider.privileges) ∧
        (obs.resourceUpToDate = false → cr'.atProvider = cr.atProvider)) ∧
    (∀ e stmts mg', grantObserve queryErr rows (.grant cr) = (.error e, stmts, mg') →
      mg' = .grant cr) := by
  obtain ⟨hli, hfp, hup, hnup⟩ := grantObserveCore_frame rows cr
  constructor
  · intro obs stmts mg' heq
    rcases queryErr with _ | qe
    · simp only [grantObserve] at heq
      cases heq
      exact ⟨hli, (grantObserveCore rows cr).2, rfl, hfp, hup, hnup⟩
    · simp only [grantObserve] at heq
      exact absurd heq (by simp)
  · intro e stmts mg' heq
    rcases queryErr with _ | qe
    · simp only [grantObserve] at heq
      exact absurd heq (by simp)
    · simp only [grantObserve] at heq
      cases heq
      rfl

/-- C10 witness: on a successful query with matching permissions (upToDate),
the spec is untouched and the status is refreshed to the normalized desired
list. -/
theorem grant_observe_frame_witness :
    (grantObserveCore [["SELECT"]] exampleGrant).1.resourceLateInitialized = false ∧
    (grantObserveCore [["SELECT"]] exampleGrant).2.forProvider =
      exampleGrant.forProvider := by
  have h := (grant_observe_frame none [["SELECT"]] exampleGrant).1
    (grantObserveCore [["SELECT"]] exampleGrant).1
    [grantObserveQuery "example_keyspace"]
    (.grant (grantObserveCore [["SELECT"]] exampleGrant).2) rfl
  obtain ⟨h1, cr', hcr', h2, _, _⟩ := h
  refine ⟨h1, ?_⟩
  have : cr' = (grantObserveCore [["SELECT"]] exampleGrant).2 := by
    injection hcr'.symm
  exact this ▸ h2

end ProviderCassandra
